import Mathlib

/-!
Verification development for `src/droid/droid-extevdev.c` of
pulseaudio-modules-droid-30: a monitor that watches a Linux evdev switch
device and translates switch state into port availability.

The C file is shallowly embedded below.  Pure computations (the
availability policy, event processing, the drain loop of the readiness
callback, the device selector, initial synchronization, creation and
teardown) become Lean functions; external effects (libevdev reads, io
registration, port-registry writes) are represented by explicit
input scripts and output traces.
-/

namespace DroidExtevdev

/-! ### Linux input-event constants (from linux/input-event-codes.h) -/

def EV_SYN : Nat := 0
def EV_SW : Nat := 5
def SYN_REPORT : Nat := 0
def SYN_DROPPED : Nat := 3
def SW_HEADPHONE_INSERT : Nat := 2
def SW_MICROPHONE_INSERT : Nat := 4
def SW_LINEOUT_INSERT : Nat := 6

/-! ### Data model -/

/-- `struct input_event`: type tag, code, and raw integer value. -/
structure input_event where
  type : Nat
  code : Nat
  value : Int
deriving DecidableEq

/-- The three switch-state bitfields of `struct pa_droid_extevdev`
(lines 52-54 of the C file).  In C they are `bool ... : 1` bitfields, so
assigning an `int` stores `value != 0`. -/
structure SwitchState where
  sw_headphone_insert : Bool
  sw_microphone_insert : Bool
  sw_lineout_insert : Bool
deriving DecidableEq

/-- The monitor (`struct pa_droid_extevdev`): whether the decoding context
(`evdev_dev`) exists, whether the io registration (`event`) exists, and the
switch state.  The `card` pointer is external and not modelled. -/
structure Monitor where
  evdev_dev : Bool
  event : Bool
  sw : SwitchState
deriving DecidableEq

/-! ### Availability policy and port notifier (`notify_ports`, lines 124-146) -/

def headphone_ports : List String := ["output-wired_headphone"]

def headset_ports : List String := ["output-wired_headset", "input-wired_headset"]

/-- `has_headphone` of `notify_ports`:
`(sw_headphone_insert || sw_lineout_insert) && !sw_microphone_insert`. -/
def has_headphone (u : SwitchState) : Bool :=
  (u.sw_headphone_insert || u.sw_lineout_insert) && !u.sw_microphone_insert

/-- `has_headset` of `notify_ports`:
`(sw_headphone_insert || sw_lineout_insert) && sw_microphone_insert`. -/
def has_headset (u : SwitchState) : Bool :=
  (u.sw_headphone_insert || u.sw_lineout_insert) && u.sw_microphone_insert

/-- `notify_ports`: for each name of each fixed port list, look the name up
in the card's port registry (modelled as the list of present names) and, if
found, write the availability decision.  The result is the ordered list of
registry writes. -/
def notify_ports (registry : List String) (u : SwitchState) : List (String × Bool) :=
  (headphone_ports.filter registry.contains).map (fun n => (n, has_headphone u)) ++
  (headset_ports.filter registry.contains).map (fun n => (n, has_headset u))

/-! ### Event processing (lines 182-200 of `evdev_cb`) -/

/-- The body of `evdev_cb` after an event has been decoded: an `EV_SW`
event with a recognized code assigns the event value to the one matching
bitfield; other switch codes are ignored; an `EV_SYN`/`SYN_REPORT` event
triggers `notify_ports` (second component `true`); anything else is
ignored. -/
def process_event (u : SwitchState) (ev : input_event) : SwitchState × Bool :=
  if ev.type = EV_SW then
    if ev.code = SW_HEADPHONE_INSERT then
      ({ u with sw_headphone_insert := ev.value != 0 }, false)
    else if ev.code = SW_MICROPHONE_INSERT then
      ({ u with sw_microphone_insert := ev.value != 0 }, false)
    else if ev.code = SW_LINEOUT_INSERT then
      ({ u with sw_lineout_insert := ev.value != 0 }, false)
    else
      (u, false)
  else if ev.type = EV_SYN ∧ ev.code = SYN_REPORT then
    (u, true)
  else
    (u, false)

/-! ### The drain loop of `evdev_cb` (lines 157-201) -/

/-- Outcome of one `libevdev_next_event` call: success with an event,
`LIBEVDEV_READ_STATUS_SYNC` with an event, `-EAGAIN` (would-block), or a
hard error `-e`. -/
inductive ReadOutcome where
  | success (ev : input_event)
  | sync (ev : input_event)
  | eagain
  | error (e : Nat)
deriving DecidableEq

/-- The `flags` variable of `evdev_cb`: `LIBEVDEV_READ_FLAG_NORMAL` or
`LIBEVDEV_READ_FLAG_SYNC`. -/
inductive ReadFlag where
  | normal
  | sync
deriving DecidableEq

/-- Result of one drain: final switch state, the switch-state snapshots at
each `notify_ports` call in order, the final `flags`, the hard error that
ended the loop (if any), and the read outcomes left unconsumed when the
loop broke. -/
structure DrainResult where
  sw : SwitchState
  notifies : List SwitchState
  flagsEnd : ReadFlag
  hardError : Option Nat
  rest : List ReadOutcome
deriving DecidableEq

/-- The `while (1)` drain loop of `evdev_cb`, over a script of read
outcomes consumed one per `libevdev_next_event` call:
`-EAGAIN` under SYNC reverts `flags` to NORMAL and continues, under NORMAL
it breaks; `LIBEVDEV_READ_STATUS_SYNC` under NORMAL switches `flags` to
SYNC and continues (the event is not processed), under SYNC it falls
through and processes the event; a hard error breaks; a successful read
processes the event. -/
def drain : ReadFlag → SwitchState → List ReadOutcome → DrainResult
  | flags, u, [] => ⟨u, [], flags, none, []⟩
  | flags, u, o :: rest =>
    match o, flags with
    | .eagain, .sync => drain .normal u rest
    | .eagain, .normal => ⟨u, [], .normal, none, rest⟩
    | .sync _, .normal => drain .sync u rest
    | .sync ev, .sync =>
        let p := process_event u ev
        let r := drain .sync p.1 rest
        if p.2 then { r with notifies := p.1 :: r.notifies } else r
    | .success ev, f =>
        let p := process_event u ev
        let r := drain f p.1 rest
        if p.2 then { r with notifies := p.1 :: r.notifies } else r
    | .error e, f => ⟨u, [], f, some e, rest⟩

/-- `evdev_cb`: one readiness wake-up starts the drain with
`flags = LIBEVDEV_READ_FLAG_NORMAL`, mutates only the switch state of the
monitor, and produces the `notify_ports` snapshots. -/
def evdev_cb (u : Monitor) (script : List ReadOutcome) : Monitor × List SwitchState :=
  let r := drain .normal u.sw script
  ({ u with sw := r.sw }, r.notifies)

/-! ### Initial synchronization (`read_initial_switch_values`, lines 204-221) -/

/-- `libevdev_fetch_event_value` for `EV_SW` codes: the decoding context's
cached value for a code, `none` when the device does not support it. -/
def libevdev_fetch_bool (fetch : Nat → Option Int) (code : Nat) : Bool :=
  match fetch code with
  | some v => v != 0
  | none => false

/-- `read_initial_switch_values` without its final `notify_ports` call:
each of the three bitfields is set from the cached value of its code, and
to `false` when the code is unsupported. -/
def read_initial_switch_values (fetch : Nat → Option Int) : SwitchState :=
  { sw_headphone_insert := libevdev_fetch_bool fetch SW_HEADPHONE_INSERT,
    sw_microphone_insert := libevdev_fetch_bool fetch SW_MICROPHONE_INSERT,
    sw_lineout_insert := libevdev_fetch_bool fetch SW_LINEOUT_INSERT }

/-! ### Device selector (`find_switch_evdev`, lines 61-109) -/

/-- A candidate `/dev/input/event*` node, by the outcomes of the three
probing steps the selector applies to it: does `open` succeed, does
`libevdev_new_from_fd` succeed, does `libevdev_has_event_code(dev, EV_SW,
SW_HEADPHONE_INSERT)` hold. -/
structure Candidate where
  opensOk : Bool
  ctxOk : Bool
  hasHeadphoneCap : Bool
deriving DecidableEq

/-- A candidate qualifies when all three probing steps succeed. -/
def qualifies (c : Candidate) : Bool :=
  c.opensOk && c.ctxOk && c.hasHeadphoneCap

/-- What the selector loop body does with one candidate. -/
inductive CandFate where
  | skipOpenFail
  | skipCtxFail
  | rejectedReleased
  | selected
deriving DecidableEq

/-- The loop body of `find_switch_evdev` for one candidate: open failure is
logged and skipped; `libevdev_new_from_fd` failure closes the fd and skips;
a device with the headphone-insert capability is selected; otherwise the
context is freed and the fd closed. -/
def candidate_fate (c : Candidate) : CandFate :=
  if !c.opensOk then .skipOpenFail
  else if !c.ctxOk then .skipCtxFail
  else if c.hasHeadphoneCap then .selected
  else .rejectedReleased

/-- The selector loop: index of the first qualifying candidate in the
version-sorted enumeration order, if any. -/
def find_first : List Candidate → Option Nat
  | [] => none
  | c :: rest => if qualifies c then some 0 else (find_first rest).map (· + 1)

/-- `find_switch_evdev`: `none` input models `scandir` failing (no loop
iterations, `NULL` returned); otherwise the first qualifying candidate of
the version-sorted list wins. -/
def find_switch_evdev (scan : Option (List Candidate)) : Option Nat :=
  match scan with
  | none => none
  | some cs => find_first cs

/-! ### Creation and teardown (`pa_droid_extevdev_new`, `pa_droid_extevdev_free`) -/

/-- The externally visible steps of `pa_droid_extevdev_new`, in program
order: run the selector, register the io callback (`io_new`), run
`read_initial_switch_values`, whose final `notify_ports` call is the
`notify` step carrying the state it evaluates. -/
inductive CreateStep where
  | findDevice
  | ioNew
  | initialRead
  | notify (st : SwitchState)
deriving DecidableEq

structure CreateResult where
  monitor : Option Monitor
  steps : List CreateStep
deriving DecidableEq

def is_notify : CreateStep → Bool
  | .notify _ => true
  | _ => false

/-- `pa_droid_extevdev_new`, parametrized by the selector's result: `none`
for no device found (the `goto fail` path frees the empty monitor and
returns `NULL`); otherwise the cached-value function of the selected
device.  On success the callback is registered with `io_new`, then
`read_initial_switch_values` runs and calls `notify_ports` once. -/
def pa_droid_extevdev_new (found : Option (Nat → Option Int)) : CreateResult :=
  match found with
  | none => ⟨none, [.findDevice]⟩
  | some fetch =>
      let st := read_initial_switch_values fetch
      ⟨some ⟨true, true, st⟩, [.findDevice, .ioNew, .initialRead, .notify st]⟩

/-- The resource-releasing actions of `pa_droid_extevdev_free`, in program
order. -/
inductive FreeStep where
  | ioFree
  | libevdevFree
  | closeFd
  | xfree
deriving DecidableEq

/-- `pa_droid_extevdev_free` (lines 247-258): `io_free` only if `u->event`
exists; `libevdev_free` then `close(fd)` only if `u->evdev_dev` exists;
always `pa_xfree(u)`. -/
def pa_droid_extevdev_free (u : Monitor) : List FreeStep :=
  (if u.event then [.ioFree] else []) ++
  (if u.evdev_dev then [.libevdevFree, .closeFd] else []) ++
  [.xfree]

/-- A cached-value function whose only supported switch code is
microphone-insert, with cached value 1 (the scenario of the initial-sync
testable property). -/
def mic_only_fetch : Nat → Option Int :=
  fun code => if code = SW_MICROPHONE_INSERT then some 1 else none

/-! ### Helper lemmas -/

theorem find_first_some_spec (cs : List Candidate) (i : Nat)
    (h : find_first cs = some i) :
    (∃ c, cs.get? i = some c ∧ qualifies c = true) ∧
    (∀ j c, j < i → cs.get? j = some c → qualifies c = false) := by
  induction cs generalizing i with
  | nil => simp [find_first] at h
  | cons c rest ih =>
    by_cases hq : qualifies c = true
    · rw [find_first, if_pos hq] at h
      obtain rfl : (0 : Nat) = i := Option.some.inj h
      refine ⟨⟨c, rfl, hq⟩, ?_⟩
      intro j d hj _
      exact absurd hj (Nat.not_lt_zero j)
    · rw [find_first, if_neg hq] at h
      cases hf : find_first rest with
      | none => rw [hf] at h; simp at h
      | some k =>
        rw [hf] at h
        simp only [Option.map_some'] at h
        obtain rfl : k + 1 = i := Option.some.inj h
        obtain ⟨⟨d, hd, hdq⟩, hmin⟩ := ih k hf
        refine ⟨⟨d, by simpa using hd, hdq⟩, ?_⟩
        intro j e hj he
        cases j with
        | zero =>
          simp only [List.get?_cons_zero, Option.some.injEq] at he
          subst he
          simpa using hq
        | succ m =>
          exact hmin m e (by omega) (by simpa using he)

theorem find_first_none_iff (cs : List Candidate) :
    find_first cs = none ↔ ∀ c ∈ cs, qualifies c = false := by
  induction cs with
  | nil => simp [find_first]
  | cons c rest ih =>
    by_cases hq : qualifies c = true
    · simp [find_first, hq]
    · simp only [find_first, if_neg hq, Option.map_eq_none', ih, List.mem_cons]
      constructor
      · intro hall d hd
        rcases hd with rfl | hd
        · simpa using hq
        · exact hall d hd
      · intro hall d hd
        exact hall d (Or.inr hd)

/-! ### Theorems -/

/-- C2: for every combination of the three switch booleans, the
availability policy computed when ports are notified is
`headphone_available = (headphone_insert OR lineout_insert) AND NOT
microphone_insert` and `headset_available = (headphone_insert OR
lineout_insert) AND microphone_insert`; in particular `(true,false,false)`
yields `(true,false)`, `(true,true,false)` yields `(false,true)`, and
`(false,true,false)` yields `(false,false)`; and `notify_ports` writes
exactly these decisions to the ports present in the registry. -/
theorem C2_availability_policy (hp mic lo : Bool) :
    has_headphone ⟨hp, mic, lo⟩ = ((hp || lo) && !mic)
  ∧ has_headset ⟨hp, mic, lo⟩ = ((hp || lo) && mic)
  ∧ (has_headphone ⟨true, false, false⟩, has_headset ⟨true, false, false⟩) = (true, false)
  ∧ (has_headphone ⟨true, true, false⟩, has_headset ⟨true, true, false⟩) = (false, true)
  ∧ (has_headphone ⟨false, true, false⟩, has_headset ⟨false, true, false⟩) = (false, false)
  ∧ notify_ports ["output-wired_headphone", "output-wired_headset", "input-wired_headset"]
      ⟨hp, mic, lo⟩ =
      [("output-wired_headphone", has_headphone ⟨hp, mic, lo⟩),
       ("output-wired_headset", has_headset ⟨hp, mic, lo⟩),
       ("input-wired_headset", has_headset ⟨hp, mic, lo⟩)] := by
  refine ⟨rfl, rfl, rfl, rfl, rfl, ?_⟩
  simp [notify_ports, headphone_ports, headset_ports]

/-- C3: for all eight combinations of the three switch booleans the pair
of availability decisions is one of `(false,false)`, `(true,false)`,
`(false,true)`: the two decisions are never simultaneously true. -/
theorem C3_mutual_exclusion (st : SwitchState) :
    (has_headphone st && has_headset st) = false
  ∧ ((has_headphone st, has_headset st) = (false, false)
     ∨ (has_headphone st, has_headset st) = (true, false)
     ∨ (has_headphone st, has_headset st) = (false, true)) := by
  obtain ⟨hp, mic, lo⟩ := st
  cases hp <;> cases mic <;> cases lo <;> simp [has_headphone, has_headset]

/-- C5: the event stream "switch headphone-insert=1, resync-required with
snapshot events headphone-insert=1 and microphone-insert=1 ending in the
report marker, then would-block twice" drained in one wake-up yields final
state headphone=true, microphone=true and exactly one `notify_ports`
evaluation, taken at the stream-boundary marker. -/
theorem C5_resync_recovery :
    drain .normal ⟨false, false, false⟩
      [ .success ⟨EV_SW, SW_HEADPHONE_INSERT, 1⟩,
        .sync ⟨EV_SYN, SYN_DROPPED, 0⟩,
        .sync ⟨EV_SW, SW_HEADPHONE_INSERT, 1⟩,
        .sync ⟨EV_SW, SW_MICROPHONE_INSERT, 1⟩,
        .sync ⟨EV_SYN, SYN_REPORT, 0⟩,
        .eagain, .eagain ]
    = ⟨⟨true, true, false⟩, [⟨true, true, false⟩], .normal, none, []⟩ := by
  rfl

/-- C1: the drain loop of the read callback obeys the three-outcome
protocol: would-block under NORMAL ends the drain (leaving the remaining
outcomes unconsumed); would-block under RESYNC reverts to NORMAL and keeps
reading; resync-required under NORMAL switches to RESYNC and keeps reading;
resync-required while already in RESYNC processes the snapshot event and
continues under RESYNC with no further mode switch; a hard error ends the
drain and the callback leaves the readiness registration (and the decoding
context) of the monitor untouched. -/
theorem C1_drain_protocol (u : Monitor) (st : SwitchState) (ev : input_event)
    (e : Nat) (rest : List ReadOutcome) :
    drain .normal st (.eagain :: rest) = ⟨st, [], .normal, none, rest⟩
  ∧ drain .sync st (.eagain :: rest) = drain .normal st rest
  ∧ drain .normal st (.sync ev :: rest) = drain .sync st rest
  ∧ drain .sync st (.sync ev :: rest) =
      (let p := process_event st ev
       let r := drain .sync p.1 rest
       if p.2 then { r with notifies := p.1 :: r.notifies } else r)
  ∧ (∀ f : ReadFlag, drain f st (.error e :: rest) = ⟨st, [], f, some e, rest⟩)
  ∧ (evdev_cb u (.error e :: rest)).1.event = u.event
  ∧ (evdev_cb u (.error e :: rest)).1.evdev_dev = u.evdev_dev := by
  refine ⟨rfl, rfl, rfl, rfl, fun f => ?_, rfl, rfl⟩
  cases f <;> rfl

/-- C8: frame effect of processing one decoded event: a switch-type event
with one of the three recognized codes updates exactly that boolean
(leaving the other two unchanged) and does not notify; a switch-type event
with any other code changes nothing and does not notify; a non-switch
event other than the stream-boundary marker changes nothing and does not
notify; the stream-boundary marker changes nothing and triggers the
notification. -/
theorem C8_event_frame (st : SwitchState) (ev : input_event) :
    (ev.type = EV_SW ∧ ev.code = SW_HEADPHONE_INSERT →
       process_event st ev = ({ st with sw_headphone_insert := ev.value != 0 }, false))
  ∧ (ev.type = EV_SW ∧ ev.code = SW_MICROPHONE_INSERT →
       process_event st ev = ({ st with sw_microphone_insert := ev.value != 0 }, false))
  ∧ (ev.type = EV_SW ∧ ev.code = SW_LINEOUT_INSERT →
       process_event st ev = ({ st with sw_lineout_insert := ev.value != 0 }, false))
  ∧ (ev.type = EV_SW ∧ ev.code ≠ SW_HEADPHONE_INSERT ∧ ev.code ≠ SW_MICROPHONE_INSERT ∧
       ev.code ≠ SW_LINEOUT_INSERT → process_event st ev = (st, false))
  ∧ (ev.type ≠ EV_SW ∧ ¬(ev.type = EV_SYN ∧ ev.code = SYN_REPORT) →
       process_event st ev = (st, false))
  ∧ (ev.type = EV_SYN ∧ ev.code = SYN_REPORT →
       process_event st ev = (st, true)) := by
  refine ⟨?_, ?_, ?_, ?_, ?_, ?_⟩ <;> intro h
  · simp [process_event, h.1, h.2]
  · obtain ⟨h1, h2⟩ := h
    simp only [process_event, h1, h2, if_true]
    norm_num [SW_HEADPHONE_INSERT, SW_MICROPHONE_INSERT]
  · obtain ⟨h1, h2⟩ := h
    simp only [process_event, h1, h2, if_true]
    norm_num [SW_HEADPHONE_INSERT, SW_MICROPHONE_INSERT, SW_LINEOUT_INSERT]
  · obtain ⟨h1, h2, h3, h4⟩ := h
    simp [process_event, h1, h2, h3, h4]
  · obtain ⟨h1, h2⟩ := h
    have hne : ev.type = EV_SYN ∧ ev.code = SYN_REPORT ↔ False := by
      simp only [iff_false]; exact h2
    simp [process_event, h1, h2]
  · obtain ⟨h1, h2⟩ := h
    simp [process_event, h1, h2, EV_SYN, EV_SW, SYN_REPORT]

/-- C8 witness: a headphone-insert switch event with value 1 on the all-false
state updates only the headphone boolean and does not notify. -/
theorem C8_event_frame_witness :
    process_event ⟨false, false, false⟩ ⟨EV_SW, SW_HEADPHONE_INSERT, (1 : Int)⟩ =
      (⟨true, false, false⟩, false) :=
  (C8_event_frame ⟨false, false, false⟩ ⟨EV_SW, SW_HEADPHONE_INSERT, (1 : Int)⟩).1 ⟨rfl, rfl⟩

/-- C10: for a decoded switch event of a recognized code, the
corresponding switch boolean becomes true exactly when the raw integer
value of the event is nonzero — any nonzero value counts as present. -/
theorem C10_nonzero_value (st : SwitchState) (v : Int) :
    ((process_event st ⟨EV_SW, SW_HEADPHONE_INSERT, v⟩).1.sw_headphone_insert = true ↔ v ≠ 0)
  ∧ ((process_event st ⟨EV_SW, SW_MICROPHONE_INSERT, v⟩).1.sw_microphone_insert = true ↔ v ≠ 0)
  ∧ ((process_event st ⟨EV_SW, SW_LINEOUT_INSERT, v⟩).1.sw_lineout_insert = true ↔ v ≠ 0)
  ∧ (process_event st ⟨EV_SW, SW_HEADPHONE_INSERT, (2 : Int)⟩).1.sw_headphone_insert = true := by
  refine ⟨?_, ?_, ?_, ?_⟩ <;>
    simp [process_event, EV_SW, EV_SYN, SW_HEADPHONE_INSERT, SW_MICROPHONE_INSERT,
      SW_LINEOUT_INSERT, bne_iff_ne]

/-- C6: the device selector examines the version-sorted candidates in
order and returns the first one that opens, yields a decoding context and
reports the headphone-insertion capability; open failure and context
failure are non-fatal skips; a capable-context-less candidate is released
and closed; and `none` is returned when nothing qualifies or when the
directory cannot be enumerated. -/
theorem C6_device_selector (cs : List Candidate) (c : Candidate) (i : Nat) :
    find_switch_evdev none = none
  ∧ (candidate_fate c = CandFate.selected ↔ qualifies c = true)
  ∧ (c.opensOk = false → candidate_fate c = CandFate.skipOpenFail)
  ∧ (c.opensOk = true → c.ctxOk = false → candidate_fate c = CandFate.skipCtxFail)
  ∧ (c.opensOk = true → c.ctxOk = true → c.hasHeadphoneCap = false →
      candidate_fate c = CandFate.rejectedReleased)
  ∧ (find_switch_evdev (some cs) = some i →
      (∃ d, cs.get? i = some d ∧ qualifies d = true) ∧
      (∀ j d, j < i → cs.get? j = some d → qualifies d = false))
  ∧ (find_switch_evdev (some cs) = none ↔ ∀ d ∈ cs, qualifies d = false) := by
  obtain ⟨o, x, cap⟩ := c
  refine ⟨rfl, ?_, ?_, ?_, ?_, ?_, ?_⟩
  · cases o <;> cases x <;> cases cap <;> simp [candidate_fate, qualifies]
  · intro h; subst h; simp [candidate_fate]
  · intro h1 h2; subst h1; subst h2; simp [candidate_fate]
  · intro h1 h2 h3; subst h1; subst h2; subst h3; simp [candidate_fate]
  · exact fun h => find_first_some_spec cs i h
  · exact find_first_none_iff cs

/-- C6 witness: with a first candidate that fails to open and a second that
qualifies, the selector's answer `some 1` satisfies the first-match
specification. -/
theorem C6_device_selector_witness :
    (∃ d, ([⟨false, true, true⟩, ⟨true, true, true⟩] : List Candidate).get? 1 = some d ∧
       qualifies d = true) ∧
    (∀ j d, j < 1 →
       ([⟨false, true, true⟩, ⟨true, true, true⟩] : List Candidate).get? j = some d →
       qualifies d = false) :=
  (C6_device_selector [⟨false, true, true⟩, ⟨true, true, true⟩]
    ⟨false, true, true⟩ 1).2.2.2.2.2.1 rfl

/-- C4 counterexample: on the success path of creation the io registration
(`io_new`) happens strictly before `read_initial_switch_values`, refuting
the claim that the initial read precedes the callback registration. -/
theorem C4_counterexample :
    (pa_droid_extevdev_new (some fun _ => none)).steps =
      [CreateStep.findDevice, CreateStep.ioNew, CreateStep.initialRead,
       CreateStep.notify ⟨false, false, false⟩]
  ∧ (pa_droid_extevdev_new (some fun _ => none)).steps.indexOf CreateStep.ioNew <
    (pa_droid_extevdev_new (some fun _ => none)).steps.indexOf CreateStep.initialRead := by
  exact ⟨rfl, by decide⟩

/-- C4 amended: during Monitor creation the readiness callback is
registered before the initial synchronization read; whenever the initial
read occurs, the registration occurred earlier in the creation sequence. -/
theorem C4_registration_precedes_initial_read (found : Option (Nat → Option Int))
    (h : CreateStep.initialRead ∈ (pa_droid_extevdev_new found).steps) :
    (pa_droid_extevdev_new found).steps.indexOf CreateStep.ioNew <
    (pa_droid_extevdev_new found).steps.indexOf CreateStep.initialRead := by
  cases found with
  | none => simp [pa_droid_extevdev_new] at h
  | some fetch =>
    show List.indexOf _ _ < List.indexOf _ _
    have h1 : (pa_droid_extevdev_new (some fetch)).steps.indexOf CreateStep.ioNew = 1 := rfl
    have h2 : (pa_droid_extevdev_new (some fetch)).steps.indexOf CreateStep.initialRead = 2 := rfl
    rw [h1, h2]
    omega

/-- C4 amended witness: at a concrete device the initial read is present
in the creation steps and the registration index is smaller. -/
theorem C4_registration_precedes_initial_read_witness :
    CreateStep.initialRead ∈ (pa_droid_extevdev_new (some fun _ => none)).steps ∧
    (pa_droid_extevdev_new (some fun _ => none)).steps.indexOf CreateStep.ioNew <
    (pa_droid_extevdev_new (some fun _ => none)).steps.indexOf CreateStep.initialRead :=
  ⟨by decide, C4_registration_precedes_initial_read (some fun _ => none) (by decide)⟩

/-- C7 counterexample: a device with cached microphone-insert=1 and the
other codes unsupported yields one immediate evaluation at state
(false, true, false) — but there headset availability is false, not true,
because neither headphone-insert nor lineout-insert is set. -/
theorem C7_counterexample :
    (pa_droid_extevdev_new (some mic_only_fetch)).steps.filter is_notify =
      [CreateStep.notify ⟨false, true, false⟩]
  ∧ has_headset ⟨false, true, false⟩ = false := ⟨rfl, rfl⟩

/-- C7 amended: each switch boolean of the initial synchronization read is
set from the decoding context's cached value for its code, defaulting to
false when the code is unsupported; creation performs exactly one
`notify_ports` evaluation (the one inside `read_initial_switch_values`,
hence before any readiness callback can run); and a device with cached
microphone-insert=1 and the other codes unsupported yields that one
evaluation at state (false, true, false), where headset availability is
false (microphone alone implies nothing). -/
theorem C7_initial_sync (fetch : Nat → Option Int) (v : Int) :
    (fetch SW_HEADPHONE_INSERT = some v →
       (read_initial_switch_values fetch).sw_headphone_insert = (v != 0))
  ∧ (fetch SW_MICROPHONE_INSERT = some v →
       (read_initial_switch_values fetch).sw_microphone_insert = (v != 0))
  ∧ (fetch SW_LINEOUT_INSERT = some v →
       (read_initial_switch_values fetch).sw_lineout_insert = (v != 0))
  ∧ (fetch SW_HEADPHONE_INSERT = none →
       (read_initial_switch_values fetch).sw_headphone_insert = false)
  ∧ (fetch SW_MICROPHONE_INSERT = none →
       (read_initial_switch_values fetch).sw_microphone_insert = false)
  ∧ (fetch SW_LINEOUT_INSERT = none →
       (read_initial_switch_values fetch).sw_lineout_insert = false)
  ∧ ((pa_droid_extevdev_new (some fetch)).steps.filter is_notify =
       [CreateStep.notify (read_initial_switch_values fetch)])
  ∧ pa_droid_extevdev_new (some mic_only_fetch) =
      ⟨some ⟨true, true, ⟨false, true, false⟩⟩,
       [CreateStep.findDevice, CreateStep.ioNew, CreateStep.initialRead,
        CreateStep.notify ⟨false, true, false⟩]⟩
  ∧ has_headset ⟨false, true, false⟩ = false := by
  refine ⟨?_, ?_, ?_, ?_, ?_, ?_, rfl, rfl, rfl⟩ <;>
    intro h <;> simp [read_initial_switch_values, libevdev_fetch_bool, h]

/-- C7 witness: for the microphone-only device the microphone boolean is
set from the cached value 1. -/
theorem C7_initial_sync_witness :
    mic_only_fetch SW_MICROPHONE_INSERT = some 1 ∧
    (read_initial_switch_values mic_only_fetch).sw_microphone_insert = ((1 : Int) != 0) :=
  ⟨rfl, (C7_initial_sync mic_only_fetch 1).2.1 rfl⟩

/-- C9: teardown is safe on a partially-initialized monitor: no `io_free`
without a registration, no `libevdev_free`/`close` without a decoding
context; a monitor that failed at selection only gets the final memory
release; and when both resources exist the unregistration precedes the
descriptor close and the context release precedes the descriptor close. -/
theorem C9_teardown_safety (u : Monitor) :
    (u.event = false → FreeStep.ioFree ∉ pa_droid_extevdev_free u)
  ∧ (u.evdev_dev = false → FreeStep.libevdevFree ∉ pa_droid_extevdev_free u
       ∧ FreeStep.closeFd ∉ pa_droid_extevdev_free u)
  ∧ (u.event = false → u.evdev_dev = false →
       pa_droid_extevdev_free u = [FreeStep.xfree])
  ∧ (u.event = true → u.evdev_dev = true →
       pa_droid_extevdev_free u =
         [FreeStep.ioFree, FreeStep.libevdevFree, FreeStep.closeFd, FreeStep.xfree]) := by
  obtain ⟨dv, evt, sw⟩ := u
  cases dv <;> cases evt <;> simp [pa_droid_extevdev_free]

/-- C9 witness: freeing the monitor left behind by a creation that failed
at selection performs only the memory release. -/
theorem C9_teardown_safety_witness :
    pa_droid_extevdev_free ⟨false, false, ⟨false, false, false⟩⟩ = [FreeStep.xfree] :=
  (C9_teardown_safety ⟨false, false, ⟨false, false, false⟩⟩).2.2.1 rfl rfl

/-- C10 witness: a headphone-insert event with the nonzero value 2 sets
the headphone boolean. -/
theorem C10_nonzero_value_witness :
    (process_event ⟨false, false, false⟩
      ⟨EV_SW, SW_HEADPHONE_INSERT, (2 : Int)⟩).1.sw_headphone_insert = true :=
  (C10_nonzero_value ⟨false, false, false⟩ 2).1.mpr (by decide)

end DroidExtevdev
